import Mathlib

/-
Verification of the DocZen job lifecycle subsystem.

Shallow embedding of:
  src/backend/app/schemas/file.py   (JobStatus, JobType, JobCreate, JobUpdate)
  src/backend/app/models/job.py     (Job document)
  src/backend/app/services/job_service.py (JobService)
  src/backend/app/core/redis.py     (RedisClient: lpush / rpop / delete)
  src/backend/app/api/v1/files.py   (cancel_job and create_job endpoints)
  src/workers/main.py               (process_pdf_task, ocr_task, update_job_status)

Conventions: timestamps are Nat ticks (datetime.utcnow() becomes an explicit
`now` argument), opaque JSON maps (parameters, result) are association lists
of strings, and the Mongo job collection is a list of Job documents in
insertion order (find_one returns the first match, update_one patches the
first match).  The Mongo `_id` field is an opaque key read by no operation
and is omitted.  Each worker/coroutine effect is a pure function from the
explicit state; concurrency is modelled as interleaving of these atomic
store operations, which is faithful because every Mongo/Redis call the code
makes is a single atomic command on one document or key.
-/

/-- Opaque JSON-object payloads (job parameters, job result). -/
def Dict : Type := List (String × String)

instance : DecidableEq Dict := by
  unfold Dict
  infer_instance

/-- JobStatus enum from src/backend/app/schemas/file.py. -/
inductive JobStatus where
  | pending
  | processing
  | completed
  | failed
  | cancelled
deriving DecidableEq

/-- JobType enum (the fixed operation catalog) from src/backend/app/schemas/file.py. -/
inductive JobType where
  | merge_pdf
  | split_pdf
  | compress_pdf
  | convert_pdf_to_word
  | convert_word_to_pdf
  | convert_image_to_pdf
  | convert_pdf_to_image
  | extract_pages
  | remove_pages
  | rotate_pages
  | add_watermark
  | protect_pdf
  | remove_protection
  | ocr_processing
deriving DecidableEq

/-- The Job document stored in the jobs collection (src/backend/app/models/job.py). -/
structure Job where
  job_id : String
  job_type : JobType
  user_id : String
  input_files : List String
  parameters : Dict
  priority : Int
  status : JobStatus
  progress : Int
  result : Option Dict
  error_message : Option String
  created_at : Nat
  updated_at : Nat
  completed_at : Option Nat
deriving DecidableEq

/-- JobCreate schema (src/backend/app/schemas/file.py, JobBase/JobCreate),
after pydantic validation has succeeded. -/
structure JobCreate where
  job_type : JobType
  user_id : String
  input_files : List String
  parameters : Dict
  priority : Int
deriving DecidableEq

/-- JobUpdate schema: four optional patch fields.  `none` covers both an
unset field and an explicitly-null field, which update_job treats alike
(its dict comprehension drops every None value). -/
structure JobUpdate where
  status : Option JobStatus := none
  progress : Option Int := none
  result : Option Dict := none
  error_message : Option String := none
deriving DecidableEq

/-- The slice of Redis state the job code touches: the "job_queue" list key
(head = most recent LPUSH) and the set of plain keys that exist
(the "job:{id}" markers deleted by _remove_from_queue). -/
structure RedisState where
  job_queue : List String
  keys : List String
deriving DecidableEq

/-- Response of the DELETE /jobs/{job_id} endpoint (src/backend/app/api/v1/files.py):
either a JSON message or an HTTPException with a status code and detail. -/
inductive CancelResponse where
  | ok : String → CancelResponse
  | err : Nat → String → CancelResponse
deriving DecidableEq

/-- collection.find_one with filter on job_id: first document whose job_id matches. -/
def find_one (job_id : String) (s : List Job) : Option Job :=
  s.find? (fun j => j.job_id == job_id)

/-- JobService.get_job: find_one with filter on both job_id and user_id. -/
def get_job (job_id user_id : String) (s : List Job) : Option Job :=
  s.find? (fun j => j.job_id == job_id && j.user_id == user_id)

/-- collection.update_one with filter on job_id: patch the first matching document. -/
def update_one (job_id : String) (f : Job → Job) : List Job → List Job
  | [] => []
  | j :: rest =>
    if j.job_id == job_id then f j :: rest else j :: update_one job_id f rest

/-- The $set document built by JobService.update_job: the non-None patch
fields, plus updated_at always, plus completed_at exactly when the patched
status is "completed". -/
def apply_job_update (now : Nat) (u : JobUpdate) (j : Job) : Job :=
  { j with
    status := match u.status with
      | some st => st
      | none => j.status
    progress := match u.progress with
      | some p => p
      | none => j.progress
    result := match u.result with
      | some res => some res
      | none => j.result
    error_message := match u.error_message with
      | some e => some e
      | none => j.error_message
    updated_at := now
    completed_at := if u.status = some JobStatus.completed then some now else j.completed_at }

/-- JobService.update_job restricted to its store effect. -/
def update_job (now : Nat) (u : JobUpdate) (job_id : String) (s : List Job) : List Job :=
  update_one job_id (apply_job_update now u) s

/-- redis_client.lpush("job_queue", job_id): prepend to the list. -/
def lpush_queue (job_id : String) (r : RedisState) : RedisState :=
  { r with job_queue := job_id :: r.job_queue }

/-- redis_client.rpop("job_queue"): pop from the tail of the list. -/
def rpop_queue (r : RedisState) : Option String × RedisState :=
  match r.job_queue.getLast? with
  | none => (none, r)
  | some v => (some v, { r with job_queue := r.job_queue.dropLast })

/-- redis_client.delete(key). -/
def delete_key (k : String) (r : RedisState) : RedisState :=
  { r with keys := r.keys.filter (fun x => x != k) }

/-- The document JobService.create_job builds before insert_one:
pending status, progress 0, no result/error, timestamps now. -/
def mk_job (jc : JobCreate) (job_id : String) (now : Nat) : Job :=
  { job_id := job_id
    job_type := jc.job_type
    user_id := jc.user_id
    input_files := jc.input_files
    parameters := jc.parameters
    priority := jc.priority
    status := JobStatus.pending
    progress := 0
    result := none
    error_message := none
    created_at := now
    updated_at := now
    completed_at := none }

/-- JobService.create_job: build the pending job, insert_one it, then
_queue_job lpushes the id onto "job_queue".  (The freshly generated uuid4
job_id is an explicit argument.  _queue_job also spawns the
_simulate_job_processing coroutine, whose later body is
simulate_job_processing below.)  Returns the job handed back to the caller
together with the new store and Redis state. -/
def create_job (jc : JobCreate) (job_id : String) (now : Nat)
    (s : List Job) (r : RedisState) : Job × List Job × RedisState :=
  let job := mk_job jc job_id now
  (job, s ++ [job], lpush_queue job_id r)

/-- The body of the coroutine spawned by JobService._simulate_job_processing:
after the sleep it looks the job up by id and, whenever the document
merely exists, updates it to completed / progress 100 / a result —
with no check of the current status. -/
def simulate_job_processing (job_id : String) (now : Nat) (s : List Job) : List Job :=
  match find_one job_id s with
  | none => s
  | some _ =>
    update_job now
      { status := some JobStatus.completed
        progress := some (100 : Int)
        result := some [("message", "Job completed successfully")] }
      job_id s

/-- JobService.cancel_job: get_job by (job_id, user_id); return false if
absent or not pending/processing; otherwise update_job status := cancelled
and, when the job was pending, _remove_from_queue deletes the "job:{id}"
Redis key. -/
def cancel_job (job_id user_id : String) (now : Nat)
    (s : List Job) (r : RedisState) : Bool × List Job × RedisState :=
  match get_job job_id user_id s with
  | none => (false, s, r)
  | some job =>
    if job.status = JobStatus.pending ∨ job.status = JobStatus.processing then
      let s' := update_job now { status := some JobStatus.cancelled } job_id s
      let r' := if job.status = JobStatus.pending then delete_key ("job:" ++ job_id) r else r
      (true, s', r')
    else
      (false, s, r)

/-- DELETE /jobs/{job_id} (src/backend/app/api/v1/files.py): call
JobService.cancel_job; on false raise HTTPException 404 with one fixed
detail string, on true return the success message. -/
def cancel_job_endpoint (job_id user_id : String) (now : Nat)
    (s : List Job) (r : RedisState) : CancelResponse × List Job × RedisState :=
  let res := cancel_job job_id user_id now s r
  if res.1 then
    (CancelResponse.ok "Job cancelled successfully", res.2.1, res.2.2)
  else
    (CancelResponse.err 404 "Job not found or cannot be cancelled", res.2.1, res.2.2)

/-- The catalog of job_type values accepted by the JobType enum. -/
def catalog_job_types : List String :=
  ["merge_pdf", "split_pdf", "compress_pdf", "convert_pdf_to_word",
   "convert_word_to_pdf", "convert_image_to_pdf", "convert_pdf_to_image",
   "extract_pages", "remove_pages", "rotate_pages", "add_watermark",
   "protect_pdf", "remove_protection", "ocr_processing"]

/-- Pydantic validation of the job_type field against the JobType enum. -/
def parse_job_type (s : String) : Option JobType :=
  if s = "merge_pdf" then some JobType.merge_pdf
  else if s = "split_pdf" then some JobType.split_pdf
  else if s = "compress_pdf" then some JobType.compress_pdf
  else if s = "convert_pdf_to_word" then some JobType.convert_pdf_to_word
  else if s = "convert_word_to_pdf" then some JobType.convert_word_to_pdf
  else if s = "convert_image_to_pdf" then some JobType.convert_image_to_pdf
  else if s = "convert_pdf_to_image" then some JobType.convert_pdf_to_image
  else if s = "extract_pages" then some JobType.extract_pages
  else if s = "remove_pages" then some JobType.remove_pages
  else if s = "rotate_pages" then some JobType.rotate_pages
  else if s = "add_watermark" then some JobType.add_watermark
  else if s = "protect_pdf" then some JobType.protect_pdf
  else if s = "remove_protection" then some JobType.remove_protection
  else if s = "ocr_processing" then some JobType.ocr_processing
  else none

/-- Pydantic validation of input_files : List[str]; an entry is `some v`
when the incoming JSON value coerces to the string v and `none` when it is
a value str rejects, which fails the whole request. -/
def validate_input_files : List (Option String) → Option (List String)
  | [] => some []
  | none :: _ => none
  | some v :: rest => (validate_input_files rest).map (fun l => v :: l)

/-- The raw JSON body of POST /jobs before pydantic validation. -/
structure RawJobCreate where
  job_type : String
  user_id : String
  input_files : List (Option String)
  parameters : Dict
  priority : Int

/-- Pydantic validation of the whole JobCreate body. -/
def validate_job_create (raw : RawJobCreate) : Option JobCreate :=
  match parse_job_type raw.job_type, validate_input_files raw.input_files with
  | some jt, some files =>
    some { job_type := jt
           user_id := raw.user_id
           input_files := files
           parameters := raw.parameters
           priority := raw.priority }
  | _, _ => none

/-- POST /jobs (src/backend/app/api/v1/files.py): FastAPI validates the body
against JobCreate (422 on failure, before any service code runs) and then
calls JobService.create_job, returning the created job. -/
def create_job_endpoint (raw : RawJobCreate) (job_id : String) (now : Nat)
    (s : List Job) (r : RedisState) :
    Except String (Job × List Job × RedisState) :=
  match validate_job_create raw with
  | none => Except.error "422 Unprocessable Entity"
  | some jc => Except.ok (create_job jc job_id now s r)

/-- update_job_status from src/workers/main.py.  Its docstring says
"Update job status in database" but the body only prints ("This would
update the job status in MongoDB / for now just log it): the store
is returned untouched and the produced log lines are the only effect. -/
def update_job_status (job_id status : String) (progress : Int)
    (result : Option Dict) (error_message : Option String)
    (s : List Job) : List Job × List String :=
  let base := ["Job " ++ job_id ++ " status: " ++ status ++ ", progress: "
    ++ toString progress ++ "%"]
  let extra :=
    if status = "completed" ∧ result.isSome then
      ["Job " ++ job_id ++ " completed with result"]
    else if status = "failed" ∧ error_message.isSome then
      match error_message with
      | some e => ["Job " ++ job_id ++ " failed with error: " ++ e]
      | none => []
    else []
  (s, base ++ extra)

/-- The task_type values process_pdf_task dispatches on; any other value
raises ValueError("Unknown task type: ..."). -/
def known_pdf_task_types : List String :=
  ["merge_pdf", "split_pdf", "compress_pdf", "extract_pages", "remove_pages",
   "rotate_pages", "add_watermark", "protect_pdf", "remove_protection"]

/-- process_pdf_task from src/workers/main.py.  The PDFService call is an
opaque external operation, so its outcome (result dict or raised message)
is the argument op.  The task reports processing/0, runs the operation,
and reports completed/100/result on success or failed/0/error on any
exception — all through the print-only update_job_status, so the store
passes through unchanged.  Returns the store, the accumulated log and the
outcome of the task itself. -/
def process_pdf_task (op : Except String Dict) (task_type : String)
    (job_id : String) (s : List Job) :
    List Job × List String × Except String Dict :=
  let step1 := update_job_status job_id "processing" 0 none none s
  let outcome :=
    if known_pdf_task_types.contains task_type then op
    else Except.error ("Unknown task type: " ++ task_type)
  match outcome with
  | Except.ok result =>
    let step2 := update_job_status job_id "completed" 100 (some result) none step1.1
    (step2.1, step1.2 ++ step2.2, Except.ok result)
  | Except.error e =>
    let step2 := update_job_status job_id "failed" 0 none (some e) step1.1
    (step2.1, step1.2 ++ step2.2, Except.error e)

/-- ocr_task from src/workers/main.py, with the opaque
ocr_service.process_ocr outcome as the argument op. -/
def ocr_task (op : Except String Dict) (job_id : String) (s : List Job) :
    List Job × List String × Except String Dict :=
  let step1 := update_job_status job_id "processing" 0 none none s
  match op with
  | Except.ok result =>
    let step2 := update_job_status job_id "completed" 100 (some result) none step1.1
    (step2.1, step1.2 ++ step2.2, Except.ok result)
  | Except.error e =>
    let step2 := update_job_status job_id "failed" 0 none (some e) step1.1
    (step2.1, step1.2 ++ step2.2, Except.error e)

/-- The update patch simulate_job_processing applies. -/
def finish_patch : JobUpdate :=
  { status := some JobStatus.completed
    progress := some (100 : Int)
    result := some [("message", "Job completed successfully")] }

/-- One atomic store mutation of the backend job subsystem, as an
interleaving step: a create_job with a fresh uuid4 job_id, a cancel_job,
or the firing of a _simulate_job_processing coroutine.  (The worker
processes in src/workers/main.py never touch the store: their
update_job_status only prints.) -/
inductive Step : List Job → List Job → Prop where
  | create (jc : JobCreate) (job_id : String) (now : Nat) (s : List Job)
      (hfresh : find_one job_id s = none) :
      Step s (s ++ [mk_job jc job_id now])
  | cancel (job_id user_id : String) (now : Nat) (s : List Job) (r : RedisState) :
      Step s (cancel_job job_id user_id now s r).2.1
  | finish (job_id : String) (now : Nat) (s : List Job) :
      Step s (simulate_job_processing job_id now s)

/-- Per-job progress invariant: progress is 100 exactly on completed jobs,
and is otherwise 0 (the code reports no intermediate progress values). -/
def progress_inv (j : Job) : Prop :=
  (j.progress = 100 ↔ j.status = JobStatus.completed) ∧
  (j.progress = 0 ∨ j.progress = 100)

instance (j : Job) : Decidable (progress_inv j) := by
  unfold progress_inv
  infer_instance

/-- Store invariant: job_ids are pairwise distinct (uuid4 freshness) and
every stored job satisfies the progress invariant. -/
def store_inv (s : List Job) : Prop :=
  (s.map Job.job_id).Nodup ∧ ∀ j ∈ s, progress_inv j

instance (s : List Job) : Decidable (store_inv s) := by
  unfold store_inv
  infer_instance

/-- Concrete fixture: a JobCreate body. -/
def jc0 : JobCreate :=
  { job_type := JobType.merge_pdf
    user_id := "u"
    input_files := ["a.pdf"]
    parameters := []
    priority := 1 }

/-- Concrete fixture: the higher-priority JobCreate submitted second. -/
def jcB : JobCreate :=
  { jc0 with priority := 5 }

/-- Concrete fixture: empty Redis state. -/
def r0 : RedisState := { job_queue := [], keys := [] }

/-- Concrete fixture: a freshly created pending job. -/
def job0 : Job := mk_job jc0 "j1" 0

/-- Concrete fixture: the same job while a worker is executing it. -/
def job_proc : Job := { job0 with status := JobStatus.processing }

/-- Concrete fixture: the same job already cancelled. -/
def job_canc : Job := { job0 with status := JobStatus.cancelled }

/-- Concrete fixture: an operation result payload. -/
def res0 : Dict := [("output_file", "merged.pdf")]

/-- Concrete fixture: a raw POST /jobs body with a catalog-unknown job_type. -/
def raw_bad : RawJobCreate :=
  { job_type := "ocr"
    user_id := "u"
    input_files := [some "a.pdf"]
    parameters := []
    priority := 1 }

/-- Concrete fixture: a valid raw POST /jobs body. -/
def raw_good : RawJobCreate :=
  { job_type := "merge_pdf"
    user_id := "u"
    input_files := [some "a.pdf"]
    parameters := []
    priority := 1 }

/-- Folding a sequence of _queue_job pushes into the Redis queue. -/
def push_all (ids : List String) (r : RedisState) : RedisState :=
  ids.foldl (fun acc i => lpush_queue i acc) r


/-- First dispatch attempt: a worker runs process_pdf_task on the pending job j1. -/
def first_dispatch : List Job × List String × Except String Dict :=
  process_pdf_task (Except.ok res0) "merge_pdf" "j1" [job0]

/-- Second dispatch attempt on the same job, from the state the first one left. -/
def second_dispatch : List Job × List String × Except String Dict :=
  process_pdf_task (Except.ok res0) "merge_pdf" "j1" first_dispatch.1

/-- Store right after submitting job j1. -/
def s_created : List Job := (create_job jc0 "j1" 0 [] r0).2.1

/-- Redis state right after submitting job j1. -/
def r_created : RedisState := (create_job jc0 "j1" 0 [] r0).2.2

/-- Cancelling j1 while it is still pending. -/
def cancel_pending_result : Bool × List Job × RedisState :=
  cancel_job "j1" "u" 1 s_created r_created

/-- The _simulate_job_processing coroutine spawned at submit then fires on the
already-cancelled job. -/
def s_after_finish : List Job := simulate_job_processing "j1" 2 cancel_pending_result.2.1

/-- The worker ocr_task on the pending job j1 with a raising OCR operation. -/
def ocr_run : List Job × List String × Except String Dict :=
  ocr_task (Except.error "OCR failed") "j1" [job0]

/-- The Redis queue after submitting jobA (priority 1) and then jobB (priority 5). -/
def queue_two : RedisState :=
  (create_job jcB "jobB" 1 (create_job jc0 "jobA" 0 [] r0).2.1
    (create_job jc0 "jobA" 0 [] r0).2.2).2.2

/-- A concrete patch exercising the update_job frame theorem. -/
def u_ex : JobUpdate := { progress := some (30 : Int) }


theorem apply_job_update_job_id (now : Nat) (u : JobUpdate) (j : Job) :
    (apply_job_update now u j).job_id = j.job_id := rfl

theorem find_one_nil {id : String} : find_one id [] = none := rfl

theorem find_one_cons_pos {a : Job} (tl : List Job) {id : String}
    (h : a.job_id = id) : find_one id (a :: tl) = some a :=
  List.find?_cons_of_pos (p := fun (j : Job) => j.job_id == id) tl (by simpa using h)

theorem find_one_cons_neg {a : Job} (tl : List Job) {id : String}
    (h : a.job_id ≠ id) : find_one id (a :: tl) = find_one id tl :=
  List.find?_cons_of_neg (p := fun (j : Job) => j.job_id == id) tl (by simpa using h)

theorem get_job_cons_pos {a : Job} (tl : List Job) {id uid : String}
    (h1 : a.job_id = id) (h2 : a.user_id = uid) :
    get_job id uid (a :: tl) = some a :=
  List.find?_cons_of_pos (p := fun (j : Job) => j.job_id == id && j.user_id == uid) tl
    (by simp [h1, h2])

theorem get_job_cons_neg {a : Job} (tl : List Job) {id uid : String}
    (h : ¬(a.job_id = id ∧ a.user_id = uid)) :
    get_job id uid (a :: tl) = get_job id uid tl :=
  List.find?_cons_of_neg (p := fun (j : Job) => j.job_id == id && j.user_id == uid) tl
    (by simpa using h)

theorem find_one_mem {id : String} {s : List Job} {j : Job}
    (h : find_one id s = some j) : j ∈ s :=
  List.mem_of_find?_eq_some h

theorem find_one_job_id {id : String} {s : List Job} {j : Job}
    (h : find_one id s = some j) : j.job_id = id := by
  have := List.find?_some h
  simpa using this

theorem get_job_mem {id uid : String} {s : List Job} {j : Job}
    (h : get_job id uid s = some j) : j ∈ s :=
  List.mem_of_find?_eq_some h

theorem get_job_job_id {id uid : String} {s : List Job} {j : Job}
    (h : get_job id uid s = some j) : j.job_id = id := by
  have := List.find?_some h
  simp only [Bool.and_eq_true, beq_iff_eq] at this
  exact this.1

theorem find_one_eq_none_iff {id : String} {s : List Job} :
    find_one id s = none ↔ ∀ j ∈ s, j.job_id ≠ id := by
  unfold find_one
  rw [List.find?_eq_none]
  simp

theorem find_one_append {id : String} {s : List Job} {j : Job} (ys : List Job)
    (h : find_one id s = some j) : find_one id (s ++ ys) = some j := by
  unfold find_one at h ⊢
  rw [List.find?_append, h]
  rfl

theorem mem_update_one {id : String} {f : Job → Job} :
    ∀ {s : List Job} {j' : Job}, j' ∈ update_one id f s →
      j' ∈ s ∨ ∃ t, find_one id s = some t ∧ j' = f t := by
  intro s
  induction s with
  | nil => intro j' h; exact absurd h (List.not_mem_nil j')
  | cons a tl ih =>
    intro j' h
    by_cases hpa : a.job_id = id
    · rw [update_one, if_pos (beq_iff_eq.mpr hpa)] at h
      rcases List.mem_cons.mp h with h | h
      · exact Or.inr ⟨a, find_one_cons_pos tl hpa, h⟩
      · exact Or.inl (List.mem_cons_of_mem a h)
    · rw [update_one, if_neg (fun hb => hpa (beq_iff_eq.mp hb))] at h
      rcases List.mem_cons.mp h with h | h
      · exact Or.inl (h ▸ List.mem_cons_self a tl)
      · rcases ih h with h | ⟨t, ht, hj⟩
        · exact Or.inl (List.mem_cons_of_mem a h)
        · exact Or.inr ⟨t, by rw [find_one_cons_neg tl hpa]; exact ht, hj⟩

theorem find_one_update_one_self {f : Job → Job}
    (hf : ∀ j, (f j).job_id = j.job_id) (id : String) :
    ∀ s : List Job, find_one id (update_one id f s) = (find_one id s).map f := by
  intro s
  induction s with
  | nil => rfl
  | cons a tl ih =>
    by_cases hpa : a.job_id = id
    · rw [update_one, if_pos (beq_iff_eq.mpr hpa)]
      rw [find_one_cons_pos tl ((hf a).trans hpa), find_one_cons_pos tl hpa]
      rfl
    · rw [update_one, if_neg (fun hb => hpa (beq_iff_eq.mp hb))]
      rw [find_one_cons_neg _ hpa, find_one_cons_neg tl hpa]
      exact ih

theorem find_one_update_one_ne {f : Job → Job}
    (hf : ∀ j, (f j).job_id = j.job_id) {id id2 : String} (hne : id2 ≠ id) :
    ∀ s : List Job, find_one id2 (update_one id f s) = find_one id2 s := by
  intro s
  induction s with
  | nil => rfl
  | cons a tl ih =>
    by_cases hpa : a.job_id = id
    · rw [update_one, if_pos (beq_iff_eq.mpr hpa)]
      have hfa : (f a).job_id ≠ id2 := by
        rw [hf a, hpa]
        exact fun h => hne h.symm
      have hpa2 : a.job_id ≠ id2 := by
        rw [hpa]
        exact fun h => hne h.symm
      rw [find_one_cons_neg tl hfa, find_one_cons_neg tl hpa2]
    · rw [update_one, if_neg (fun hb => hpa (beq_iff_eq.mp hb))]
      by_cases hpa2 : a.job_id = id2
      · rw [find_one_cons_pos _ hpa2, find_one_cons_pos tl hpa2]
      · rw [find_one_cons_neg _ hpa2, find_one_cons_neg tl hpa2]
        exact ih

theorem map_job_id_update_one {f : Job → Job}
    (hf : ∀ j, (f j).job_id = j.job_id) (id : String) :
    ∀ s : List Job, (update_one id f s).map Job.job_id = s.map Job.job_id := by
  intro s
  induction s with
  | nil => rfl
  | cons a tl ih =>
    by_cases hpa : a.job_id = id
    · rw [update_one, if_pos (beq_iff_eq.mpr hpa)]
      simp [hf a]
    · rw [update_one, if_neg (fun hb => hpa (beq_iff_eq.mp hb))]
      simp [ih]

theorem get_job_find_one {id uid : String} :
    ∀ {s : List Job}, (s.map Job.job_id).Nodup →
      ∀ {j : Job}, get_job id uid s = some j → find_one id s = some j := by
  intro s
  induction s with
  | nil => intro _ j h; exact absurd h (by simp [get_job])
  | cons a tl ih =>
    intro hnd j h
    rw [List.map_cons] at hnd
    have hnd0 := List.nodup_cons.mp hnd
    by_cases hpa : a.job_id = id ∧ a.user_id = uid
    · rw [get_job_cons_pos tl hpa.1 hpa.2] at h
      cases h
      exact find_one_cons_pos tl hpa.1
    · rw [get_job_cons_neg tl hpa] at h
      have hjmem : j ∈ tl := get_job_mem h
      have hjid : j.job_id = id := get_job_job_id h
      by_cases hid : a.job_id = id
      · exfalso
        apply hnd0.1
        rw [hid, ← hjid]
        exact List.mem_map_of_mem Job.job_id hjmem
      · rw [find_one_cons_neg tl hid]
        exact ih hnd0.2 h

/-- The update cancel_job applies leaves the progress field untouched. -/
theorem apply_cancel_fields (now : Nat) (j : Job) :
    (apply_job_update now { status := some JobStatus.cancelled } j).progress = j.progress ∧
    (apply_job_update now { status := some JobStatus.cancelled } j).status = JobStatus.cancelled :=
  ⟨rfl, rfl⟩

/-- The update simulate_job_processing applies sets progress 100 and status completed. -/
theorem apply_finish_fields (now : Nat) (j : Job) :
    (apply_job_update now finish_patch j).progress = 100 ∧
    (apply_job_update now finish_patch j).status = JobStatus.completed :=
  ⟨rfl, rfl⟩

/-- Claim C5: across every store mutation the backend job subsystem performs
(create_job with a fresh id, cancel_job, a _simulate_job_processing firing —
the worker tasks never write to the store), the per-job invariant
progress = 100 ↔ status = completed is preserved, and the progress of any
job present before and after the step never decreases. -/
theorem C5_progress_monotone_and_100_iff_completed
    (s s' : List Job) (hs : store_inv s) (hstep : Step s s') :
    store_inv s' ∧
      ∀ id j j', find_one id s = some j → find_one id s' = some j' →
        j.progress ≤ j'.progress := by
  obtain ⟨hnd, hinv⟩ := hs
  cases hstep with
  | create jc job_id now s hfresh =>
    refine ⟨⟨?_, ?_⟩, ?_⟩
    · rw [List.map_append]
      rw [List.nodup_append]
      refine ⟨hnd, List.nodup_singleton _, ?_⟩
      intro x hx hx2
      simp only [List.map_cons, List.map_nil, List.mem_singleton] at hx2
      rw [find_one_eq_none_iff] at hfresh
      rcases List.mem_map.mp hx with ⟨j, hj, hjx⟩
      exact hfresh j hj (hjx.trans hx2)
    · intro j hj
      rcases List.mem_append.mp hj with h | h
      · exact hinv j h
      · rw [List.mem_singleton] at h
        subst h
        refine ⟨⟨fun h => ?_, fun h => ?_⟩, Or.inl rfl⟩
        · simp [mk_job] at h
        · simp [mk_job] at h
    · intro id j j' h1 h2
      rw [find_one_append _ h1] at h2
      cases h2
      exact le_refl _
  | cancel job_id user_id now s r =>
    cases hg : get_job job_id user_id s with
    | none =>
      have heq : (cancel_job job_id user_id now s r).2.1 = s := by
        simp [cancel_job, hg]
      rw [heq]
      refine ⟨⟨hnd, hinv⟩, ?_⟩
      intro id j j' h1 h2
      rw [h1] at h2
      cases h2
      exact le_refl _
    | some job =>
      by_cases hst : job.status = JobStatus.pending ∨ job.status = JobStatus.processing
      · have hju : ∀ j : Job,
            (apply_job_update now { status := some JobStatus.cancelled } j).job_id = j.job_id :=
          fun j => rfl
        have heq : (cancel_job job_id user_id now s r).2.1
            = update_one job_id (apply_job_update now { status := some JobStatus.cancelled }) s := by
          simp [cancel_job, hg, hst, update_job]
        rw [heq]
        have hfo : find_one job_id s = some job := get_job_find_one hnd hg
        have hjinv := hinv job (find_one_mem hfo)
        have hprog : job.progress ≠ 100 := by
          intro h
          have hc := hjinv.1.mp h
          rcases hst with h' | h' <;> rw [hc] at h' <;> exact JobStatus.noConfusion h'
        refine ⟨⟨?_, ?_⟩, ?_⟩
        · rw [map_job_id_update_one hju]
          exact hnd
        · intro j' hj'
          rcases mem_update_one hj' with h | ⟨t, hft, hj⟩
          · exact hinv j' h
          · rw [hfo] at hft
            cases hft
            subst hj
            exact ⟨⟨fun h => absurd h hprog, fun h => JobStatus.noConfusion h⟩,
              hjinv.2.imp (fun h => h) (fun h => absurd h hprog) |>.imp_right id⟩
        · intro id j j' h1 h2
          by_cases hid : id = job_id
          · subst hid
            rw [find_one_update_one_self hju, h1] at h2
            cases h2
            exact le_refl _
          · rw [find_one_update_one_ne hju hid, h1] at h2
            cases h2
            exact le_refl _
      · have heq : (cancel_job job_id user_id now s r).2.1 = s := by
          simp [cancel_job, hg, hst]
        rw [heq]
        refine ⟨⟨hnd, hinv⟩, ?_⟩
        intro id j j' h1 h2
        rw [h1] at h2
        cases h2
        exact le_refl _
  | finish job_id now s =>
    cases hfo : find_one job_id s with
    | none =>
      have heq : simulate_job_processing job_id now s = s := by
        simp [simulate_job_processing, hfo]
      rw [heq]
      refine ⟨⟨hnd, hinv⟩, ?_⟩
      intro id j j' h1 h2
      rw [h1] at h2
      cases h2
      exact le_refl _
    | some t =>
      have hju : ∀ j : Job, (apply_job_update now finish_patch j).job_id = j.job_id :=
        fun j => rfl
      have heq : simulate_job_processing job_id now s
          = update_one job_id (apply_job_update now finish_patch) s := by
        simp [simulate_job_processing, hfo, update_job, finish_patch]
      rw [heq]
      refine ⟨⟨?_, ?_⟩, ?_⟩
      · rw [map_job_id_update_one hju]
        exact hnd
      · intro j' hj'
        rcases mem_update_one hj' with h | ⟨t', hft', hj⟩
        · exact hinv j' h
        · subst hj
          exact ⟨⟨fun _ => rfl, fun _ => rfl⟩, Or.inr rfl⟩
      · intro id j j' h1 h2
        by_cases hid : id = job_id
        · subst hid
          rw [find_one_update_one_self hju, h1] at h2
          cases h2
          have h100 : (apply_job_update now finish_patch j).progress = 100 := rfl
          rcases (hinv j (find_one_mem h1)).2 with h | h
          · rw [h100, h]
            decide
          · rw [h100, h]
        · rw [find_one_update_one_ne hju hid, h1] at h2
          cases h2
          exact le_refl _

/-- Witness for C5: the invariant conclusion, instantiated at the empty store
taking a create step. -/
theorem C5_progress_witness :
    store_inv ([] ++ [mk_job jc0 "j1" 0]) ∧
      ∀ id j j', find_one id [] = some j →
        find_one id ([] ++ [mk_job jc0 "j1" 0]) = some j' →
        j.progress ≤ j'.progress :=
  C5_progress_monotone_and_100_iff_completed [] ([] ++ [mk_job jc0 "j1" 0])
    (by decide) (Step.create jc0 "j1" 0 [] rfl)

/-- Claim C1 (code evaluation at the failing input): a dispatch attempt is the
worker process_pdf_task, whose transition to "processing" is the print-only
update_job_status; two successive attempts on the same pending job j1 both
run the operation to success, and the stored job still has status pending
after both — there is no compare-and-swap and every concurrent acquire
succeeds while the job is pending. -/
theorem C1_every_dispatch_attempt_succeeds :
    first_dispatch.1 = [job0] ∧
    first_dispatch.2.2 = Except.ok res0 ∧
    second_dispatch.1 = [job0] ∧
    second_dispatch.2.2 = Except.ok res0 ∧
    (find_one "j1" second_dispatch.1).map Job.status = some JobStatus.pending :=
  ⟨rfl, rfl, rfl, rfl, rfl⟩

/-- Claim C2 (code evaluation at the failing input): job j1 is submitted at
t=0, successfully cancelled while pending at t=1, yet when the
_simulate_job_processing coroutine spawned at submit fires at t=2 it
overwrites the cancelled job to completed with progress 100 and a result —
because it only checks that the document exists, never its status. -/
theorem C2_cancelled_pending_job_reaches_completed :
    cancel_pending_result.1 = true ∧
    (find_one "j1" cancel_pending_result.2.1).map Job.status = some JobStatus.cancelled ∧
    (find_one "j1" s_after_finish).map Job.status = some JobStatus.completed ∧
    (find_one "j1" s_after_finish).map Job.result
      = some (some [("message", "Job completed successfully")]) ∧
    (find_one "j1" s_after_finish).map Job.progress = some 100 :=
  ⟨rfl, rfl, rfl, rfl, rfl⟩

/-- Claim C4 (code evaluation at the failing input): cancel_job on a job whose
status is processing succeeds unconditionally and moves it to cancelled;
the code has no lease field and performs no lease-presence or expiry check. -/
theorem C4_cancel_processing_always_succeeds :
    (cancel_job "j1" "u" 5 [job_proc] r0).1 = true ∧
    (find_one "j1" (cancel_job "j1" "u" 5 [job_proc] r0).2.1).map Job.status
      = some JobStatus.cancelled :=
  ⟨rfl, rfl⟩

/-- Claim C6 (code evaluation at the failing input): when the OCR operation
raises, ocr_task leaves the job store byte-for-byte unchanged — the stored
job keeps status pending and error_message unset — because update_job_status
only prints; the "failed" terminal state and the verbatim error text exist
only in the printed log. -/
theorem C6_operation_error_only_logged :
    ocr_run.1 = [job0] ∧
    (find_one "j1" ocr_run.1).map Job.status = some JobStatus.pending ∧
    (find_one "j1" ocr_run.1).map Job.error_message = some none ∧
    (find_one "j1" ocr_run.1).map Job.progress = some 0 ∧
    ocr_run.2.1 = ["Job j1 status: processing, progress: 0%",
      "Job j1 status: failed, progress: 0%",
      "Job j1 failed with error: OCR failed"] ∧
    ocr_run.2.2 = Except.error "OCR failed" :=
  ⟨rfl, rfl, rfl, rfl, rfl, rfl⟩

/-- Counterexample for C7: jobA (priority 1) is submitted before jobB (priority 5);
an ordering by priority descending would yield jobB first, but the first
rpop returns jobA — the Redis list ignores priority entirely. -/
theorem C7_counterexample_priority_ignored :
    jcB.priority > jc0.priority ∧
    "jobA" ≠ "jobB" ∧
    (rpop_queue queue_two).1 = some "jobA" :=
  ⟨by decide, by decide, rfl⟩

theorem push_all_job_queue (ids : List String) :
    ∀ r : RedisState, (push_all ids r).job_queue = ids.reverse ++ r.job_queue := by
  induction ids with
  | nil => intro r; simp [push_all]
  | cons a tl ih =>
    intro r
    show (push_all tl (lpush_queue a r)).job_queue = _
    rw [ih]
    simp [lpush_queue]

theorem rpop_queue_fst (r : RedisState) :
    (rpop_queue r).1 = r.job_queue.getLast? := by
  unfold rpop_queue
  cases hg : r.job_queue.getLast? <;> rfl

/-- Claim C7 (amended): the work queue is the single Redis list "job_queue"
written with lpush and read with rpop, so ids come out in plain FIFO
submission order, with the priority field playing no part: after pushing
the sequence ids into an empty queue, the queue holds ids reversed and the
first pop returns the first-submitted id. -/
theorem C7_queue_is_fifo (ids : List String) (r : RedisState) :
    (push_all ids r).job_queue = ids.reverse ++ r.job_queue ∧
    (rpop_queue (push_all ids { job_queue := [], keys := r.keys })).1 = ids.head? := by
  refine ⟨push_all_job_queue ids r, ?_⟩
  rw [rpop_queue_fst, push_all_job_queue]
  simp

/-- Claim C8: cancel_job on a job already in a terminal state (cancelled,
completed or failed) returns false and leaves both the job store and the
Redis state entirely unchanged, so a second cancel of a cancelled job is a
no-op. -/
theorem C8_cancel_terminal_noop (job_id user_id : String) (now : Nat)
    (s : List Job) (r : RedisState) (j : Job)
    (hget : get_job job_id user_id s = some j)
    (hterm : j.status = JobStatus.completed ∨ j.status = JobStatus.failed ∨
      j.status = JobStatus.cancelled) :
    cancel_job job_id user_id now s r = (false, s, r) := by
  have hnp : ¬(j.status = JobStatus.pending ∨ j.status = JobStatus.processing) := by
    rcases hterm with h | h | h <;> rw [h] <;> rintro (h' | h') <;>
      exact JobStatus.noConfusion h'
  simp only [cancel_job, hget]
  rw [if_neg hnp]

/-- Witness for C8: a concrete already-cancelled job. -/
theorem C8_cancel_terminal_noop_witness :
    get_job "j1" "u" [job_canc] = some job_canc ∧
    cancel_job "j1" "u" 7 [job_canc] r0 = (false, [job_canc], r0) :=
  ⟨rfl, C8_cancel_terminal_noop "j1" "u" 7 [job_canc] r0 job_canc rfl
    (Or.inr (Or.inr rfl))⟩

/-- Claim C9: the $set built by update_job touches exactly the non-None patch
fields plus updated_at (always) and completed_at (exactly when the patched
status is completed); the seven other job fields are unchanged, a None
patch entry can never clear an already-set result or error_message, and
jobs with a different job_id are not modified at all. -/
theorem C9_update_job_frame (now : Nat) (u : JobUpdate) (j : Job) :
    (apply_job_update now u j).job_id = j.job_id ∧
    (apply_job_update now u j).job_type = j.job_type ∧
    (apply_job_update now u j).user_id = j.user_id ∧
    (apply_job_update now u j).input_files = j.input_files ∧
    (apply_job_update now u j).parameters = j.parameters ∧
    (apply_job_update now u j).priority = j.priority ∧
    (apply_job_update now u j).created_at = j.created_at ∧
    (apply_job_update now u j).status = u.status.getD j.status ∧
    (apply_job_update now u j).progress = u.progress.getD j.progress ∧
    (apply_job_update now u j).result
      = (match u.result with | some res => some res | none => j.result) ∧
    (apply_job_update now u j).error_message
      = (match u.error_message with | some e => some e | none => j.error_message) ∧
    (apply_job_update now u j).updated_at = now ∧
    (apply_job_update now u j).completed_at
      = (if u.status = some JobStatus.completed then some now else j.completed_at) ∧
    ∀ (id id2 : String) (s : List Job), id2 ≠ id →
      find_one id2 (update_job now u id s) = find_one id2 s := by
  obtain ⟨us, up, ur, ue⟩ := u
  refine ⟨rfl, rfl, rfl, rfl, rfl, rfl, rfl, ?_, ?_, ?_, ?_, rfl, rfl, ?_⟩
  · cases us <;> rfl
  · cases up <;> rfl
  · cases ur <;> rfl
  · cases ue <;> rfl
  · intro id id2 s hne
    exact find_one_update_one_ne
      (f := apply_job_update now { status := us, progress := up, result := ur, error_message := ue })
      (fun j' => rfl) hne s

/-- Witness for C9: the frame theorem at a concrete patch and job. -/
theorem C9_update_job_frame_witness :
    (apply_job_update 3 u_ex job0).progress = (u_ex.progress).getD job0.progress ∧
    (apply_job_update 3 u_ex job0).result = job0.result ∧
    find_one "j2" (update_job 3 u_ex "j1" [job0]) = find_one "j2" [job0] := by
  have h := C9_update_job_frame 3 u_ex job0
  exact ⟨h.2.2.2.2.2.2.2.2.1,
    h.2.2.2.2.2.2.2.2.2.1,
    h.2.2.2.2.2.2.2.2.2.2.2.2.2 "j1" "j2" [job0] (by decide)⟩

/-- Claim C10: at the HTTP surface, cancelling a job that does not exist for
this caller and cancelling a job that is already terminal produce the very
same 404 response with the same detail string, and in both cases neither
the job store nor the Redis state changes — the two situations are
indistinguishable to the client. -/
theorem C10_missing_and_terminal_indistinguishable (job_id user_id : String)
    (now : Nat) (s : List Job) (r : RedisState)
    (h : get_job job_id user_id s = none ∨
      ∃ j, get_job job_id user_id s = some j ∧
        (j.status = JobStatus.completed ∨ j.status = JobStatus.failed ∨
          j.status = JobStatus.cancelled)) :
    cancel_job_endpoint job_id user_id now s r
      = (CancelResponse.err 404 "Job not found or cannot be cancelled", s, r) := by
  have hc : cancel_job job_id user_id now s r = (false, s, r) := by
    rcases h with h | ⟨j, hj, hterm⟩
    · unfold cancel_job
      rw [h]
    · have hnp : ¬(j.status = JobStatus.pending ∨ j.status = JobStatus.processing) := by
        rcases hterm with h' | h' | h' <;> rw [h'] <;> rintro (h2 | h2) <;>
          exact JobStatus.noConfusion h2
      simp only [cancel_job, hj]
      rw [if_neg hnp]
  unfold cancel_job_endpoint
  rw [hc]
  rfl

/-- Witness for C10: cancelling a job id absent from the store. -/
theorem C10_missing_and_terminal_indistinguishable_witness :
    cancel_job_endpoint "x" "u" 0 [] r0
      = (CancelResponse.err 404 "Job not found or cannot be cancelled", [], r0) :=
  C10_missing_and_terminal_indistinguishable "x" "u" 0 [] r0 (Or.inl rfl)

theorem parse_job_type_isSome_of_mem (s : String) (h : s ∈ catalog_job_types) :
    (parse_job_type s).isSome = true := by
  simp only [catalog_job_types, List.mem_cons, List.not_mem_nil, or_false] at h
  rcases h with rfl | rfl | rfl | rfl | rfl | rfl | rfl | rfl | rfl | rfl | rfl | rfl | rfl | rfl <;> rfl

theorem parse_job_type_none_iff (s : String) :
    parse_job_type s = none ↔ s ∉ catalog_job_types := by
  constructor
  · intro h hmem
    have hs := parse_job_type_isSome_of_mem s hmem
    rw [h] at hs
    exact Bool.noConfusion hs
  · intro h
    simp only [catalog_job_types, List.mem_cons, List.not_mem_nil, or_false,
      not_or] at h
    obtain ⟨n1, n2, n3, n4, n5, n6, n7, n8, n9, n10, n11, n12, n13, n14⟩ := h
    unfold parse_job_type
    rw [if_neg n1, if_neg n2, if_neg n3, if_neg n4, if_neg n5, if_neg n6,
      if_neg n7, if_neg n8, if_neg n9, if_neg n10, if_neg n11, if_neg n12,
      if_neg n13, if_neg n14]

/-- Claim C3: POST /jobs validates the body against the JobCreate schema —
the request fails with the 422 validation error when job_type is not in the
fixed catalog or when input_files is not a well-formed list of strings —
and on success JobService.create_job builds a Job with status pending and
progress 0, appends it to the store, lpushes its id onto the "job_queue"
Redis list, and returns that very Job to the caller. -/
theorem C3_submit_validates_and_creates_pending (raw : RawJobCreate)
    (job_id : String) (now : Nat) (s : List Job) (r : RedisState) :
    (validate_job_create raw = none →
      create_job_endpoint raw job_id now s r = Except.error "422 Unprocessable Entity") ∧
    (raw.job_type ∉ catalog_job_types → validate_job_create raw = none) ∧
    (validate_input_files raw.input_files = none → validate_job_create raw = none) ∧
    (∀ jc, validate_job_create raw = some jc →
      create_job_endpoint raw job_id now s r
        = Except.ok (mk_job jc job_id now, s ++ [mk_job jc job_id now], lpush_queue job_id r) ∧
      (mk_job jc job_id now).status = JobStatus.pending ∧
      (mk_job jc job_id now).progress = 0 ∧
      (mk_job jc job_id now).result = none ∧
      (mk_job jc job_id now).error_message = none ∧
      (mk_job jc job_id now).job_id = job_id ∧
      (lpush_queue job_id r).job_queue = job_id :: r.job_queue) := by
  refine ⟨?_, ?_, ?_, ?_⟩
  · intro h
    unfold create_job_endpoint
    rw [h]
  · intro h
    have hp : parse_job_type raw.job_type = none := (parse_job_type_none_iff _).mpr h
    unfold validate_job_create
    rw [hp]
  · intro h
    unfold validate_job_create
    rw [h]
    cases hp : parse_job_type raw.job_type <;> rfl
  · intro jc hjc
    unfold create_job_endpoint
    rw [hjc]
    exact ⟨rfl, rfl, rfl, rfl, rfl, rfl, rfl⟩

/-- Witness for C3: a body with the catalog-unknown job_type "ocr" is rejected
with the validation error, and a valid merge_pdf body creates and returns
the pending job. -/
theorem C3_submit_validates_witness :
    create_job_endpoint raw_bad "j1" 0 [] r0 = Except.error "422 Unprocessable Entity" ∧
    (create_job_endpoint raw_good "j1" 0 [] r0
        = Except.ok (mk_job jc0 "j1" 0, [] ++ [mk_job jc0 "j1" 0], lpush_queue "j1" r0) ∧
      (mk_job jc0 "j1" 0).status = JobStatus.pending ∧
      (mk_job jc0 "j1" 0).progress = 0 ∧
      (mk_job jc0 "j1" 0).result = none ∧
      (mk_job jc0 "j1" 0).error_message = none ∧
      (mk_job jc0 "j1" 0).job_id = "j1" ∧
      (lpush_queue "j1" r0).job_queue = "j1" :: r0.job_queue) :=
  ⟨(C3_submit_validates_and_creates_pending raw_bad "j1" 0 [] r0).1 rfl,
    (C3_submit_validates_and_creates_pending raw_good "j1" 0 [] r0).2.2.2 jc0 rfl⟩
